import Mathlib

/-!
Verification of the Indeed helpdesk scraper (`src/scrape.py`) against its
natural-language specification.

The parsed HTML document is embedded as a tree of nodes (`Node`), mirroring
the BeautifulSoup view of the markup: an element node carries its tag name,
its list of CSS classes, its attribute dictionary and its children; a text
node carries a string.  The BeautifulSoup operations used by the scraper
(`find_all`, `find`, `.text`, `.contents`, attribute subscripting) are
defined on this tree, and `scrape_html`, `publish_to_discord` and the query
construction of `main` are translated on top of them.  Python exceptions
raised during extraction (AttributeError from calling a method on `None`,
IndexError from list subscripting, KeyError from a missing attribute,
TypeError from subscripting a NavigableString) become the error values of
an `Except`.
-/

namespace Scraper

/-- A node of the parsed markup tree: either a text node (a BeautifulSoup
NavigableString) or an element with tag name, class list, attribute list
and children. -/
inductive Node where
  | text (s : String)
  | elem (tag : String) (classes : List String)
      (attrs : List (String × String)) (children : List Node)
deriving Repr

mutual

/-- Boolean equality of nodes (structural). -/
def Node.beq : Node → Node → Bool
  | .text s, .text t => s == t
  | .elem t1 c1 a1 ch1, .elem t2 c2 a2 ch2 =>
      t1 == t2 && c1 == c2 && a1 == a2 && Node.beqList ch1 ch2
  | _, _ => false

/-- Boolean equality of node lists. -/
def Node.beqList : List Node → List Node → Bool
  | [], [] => true
  | x :: xs, y :: ys => Node.beq x y && Node.beqList xs ys
  | _, _ => false

end

mutual

theorem Node.beq_iff : ∀ a b : Node, Node.beq a b = true ↔ a = b
  | .text s, .text t => by simp [Node.beq]
  | .text _, .elem _ _ _ _ => by simp [Node.beq]
  | .elem _ _ _ _, .text _ => by simp [Node.beq]
  | .elem t1 c1 a1 ch1, .elem t2 c2 a2 ch2 => by
      simp [Node.beq, Node.beqList_iff ch1 ch2]
      tauto

theorem Node.beqList_iff : ∀ xs ys : List Node, Node.beqList xs ys = true ↔ xs = ys
  | [], [] => by simp [Node.beqList]
  | [], _ :: _ => by simp [Node.beqList]
  | _ :: _, [] => by simp [Node.beqList]
  | x :: xs, y :: ys => by
      simp [Node.beqList, Node.beq_iff x y, Node.beqList_iff xs ys]

end

instance : DecidableEq Node := fun a b =>
  decidable_of_iff (Node.beq a b = true) (Node.beq_iff a b)

/-- The children of a node (BeautifulSoup `.contents`); a text node has
none. -/
def Node.children : Node → List Node
  | .text _ => []
  | .elem _ _ _ cs => cs

/-- Whether a node is an element matching an optional tag-name filter and
an optional class filter, as in BeautifulSoup `find(tag, class_=c)`:
the class filter requires `c` to be among the element's classes; a text
node never matches. -/
def Node.matchesFilter (tagQ clsQ : Option String) : Node → Bool
  | .text _ => false
  | .elem t cs _ _ =>
      (match tagQ with | none => true | some tg => t == tg) &&
      (match clsQ with | none => true | some c => cs.contains c)

mutual

/-- All descendants of a node in document (pre-)order, the node itself
excluded, as BeautifulSoup search traverses them. -/
def Node.descendants : Node → List Node
  | .text _ => []
  | .elem _ _ _ cs => Node.descendantsList cs

/-- The pre-order traversal of a forest of nodes, each node followed by its
descendants. -/
def Node.descendantsList : List Node → List Node
  | [] => []
  | n :: ns => n :: Node.descendants n ++ Node.descendantsList ns

end

/-- BeautifulSoup `find_all(tag, class_=c)`: every descendant matching the
filters, in document order. -/
def Node.findAll (tagQ clsQ : Option String) (n : Node) : List Node :=
  (Node.descendants n).filter (Node.matchesFilter tagQ clsQ)

/-- BeautifulSoup `find(tag, class_=c)`: the first matching descendant, or
`none`. -/
def Node.find (tagQ clsQ : Option String) (n : Node) : Option Node :=
  (n.findAll tagQ clsQ).head?

mutual

/-- BeautifulSoup `.text` / `get_text()`: the concatenation of every text
node below (or at) this node, in document order. -/
def Node.innerText : Node → String
  | .text s => s
  | .elem _ _ _ cs => Node.innerTextList cs

/-- Concatenated text of a forest of nodes. -/
def Node.innerTextList : List Node → String
  | [] => ""
  | n :: ns => Node.innerText n ++ Node.innerTextList ns

end

/-- The Python exceptions that extraction can raise. -/
inductive ScrapeError where
  | attrError
  | keyError
  | indexError
  | typeError
deriving Repr, DecidableEq

/-- Attribute subscripting `node[key]` on a BeautifulSoup node: a
NavigableString cannot be subscripted by name (TypeError), a Tag without
the attribute raises KeyError. -/
def Node.getAttr (key : String) : Node → Except ScrapeError String
  | .text _ => .error .typeError
  | .elem _ _ attrs _ =>
      match attrs.lookup key with
      | some v => .ok v
      | none => .error .keyError

instance {ε α : Type} [DecidableEq ε] [DecidableEq α] : DecidableEq (Except ε α) :=
  fun x y =>
    match x, y with
    | .ok a, .ok b =>
        if h : a = b then isTrue (by rw [h]) else isFalse (fun hc => h (Except.ok.inj hc))
    | .error e, .error f =>
        if h : e = f then isTrue (by rw [h]) else isFalse (fun hc => h (Except.error.inj hc))
    | .ok _, .error _ => isFalse (fun hc => Except.noConfusion hc)
    | .error _, .ok _ => isFalse (fun hc => Except.noConfusion hc)

/-- One job posting record, the dict built by `scrape_html`
(src/scrape.py lines 73-80). -/
structure JobPosting where
  title : String
  link : String
  company : String
  location : String
  job_type : String
  salary : String
deriving Repr, DecidableEq

/-- The link built for a job key (src/scrape.py line 75):
`f"https://indeed.com/viewjob?jk={job_key}"`. -/
def mkLink (job_key : String) : String :=
  "https://indeed.com/viewjob?jk=" ++ job_key

/-- The body of the `for job in jobs` loop of `scrape_html`
(src/scrape.py lines 60-80), for one card.  Each Python statement is
translated in source order, so the first failing lookup determines the
error, exactly as the first raised exception would. -/
def scrapeCard (job : Node) : Except ScrapeError JobPosting :=
  match job.find (some "td") (some "resultContent") with
  | none => .error .attrError
  | some job_content =>
    let job_metadata := job_content.find (some "div") (some "metadata")
    match job_content.find none (some "jobTitle") with
    | none => .error .attrError
    | some job_title_header =>
      let job_title_spans := job_title_header.findAll (some "span") none
      match (Node.children job_title_header).getLast? with
      | none => .error .indexError
      | some lastContent =>
        match lastContent.getAttr "data-jk" with
        | .error e => .error e
        | .ok job_key =>
          match job_title_spans[0]? with
          | none => .error .indexError
          | some span0 =>
            let titleR : Except ScrapeError String :=
              if span0.innerText == "new" then
                match job_title_spans[1]? with
                | none => .error .indexError
                | some span1 => .ok span1.innerText
              else .ok span0.innerText
            match titleR with
            | .error e => .error e
            | .ok job_title =>
              match job_content.find none (some "companyName") with
              | none => .error .attrError
              | some companyNode =>
                match job_content.find none (some "companyLocation") with
                | none => .error .attrError
                | some locationNode =>
                  .ok { title := job_title,
                        link := mkLink job_key,
                        company := companyNode.innerText,
                        location := locationNode.innerText,
                        job_type := "Full Time",
                        salary := match job_metadata with
                                  | some m => m.innerText
                                  | none => "" }

/-- The `for job in jobs` loop of `scrape_html`: postings are accumulated
in order, and the first exception escapes the whole call, discarding the
postings accumulated so far. -/
def scrapeJobs : List Node → Except ScrapeError (List JobPosting)
  | [] => .ok []
  | job :: rest =>
    match scrapeCard job with
    | .error e => .error e
    | .ok p =>
      match scrapeJobs rest with
      | .error e => .error e
      | .ok ps => .ok (p :: ps)

/-- `scrape_html` (src/scrape.py lines 39-82): select every `div` with
class `tapItem` in the document, extract each in document order. -/
def scrape_html (doc : Node) : Except ScrapeError (List JobPosting) :=
  scrapeJobs (doc.findAll (some "div") (some "tapItem"))

/-- The single embed object built for a posting
(src/scrape.py lines 97-105). -/
structure Embed where
  title : String
  description : String
  url : String
  color : Nat
deriving Repr, DecidableEq

/-- The JSON body POSTed to the webhook for one posting
(src/scrape.py lines 94-107). -/
structure Payload where
  content : String
  embeds : List Embed
deriving Repr, DecidableEq

/-- The payload built from one posting inside the publish loop: empty
content, a single embed whose description is the four labelled lines
joined by newlines, and the literal color 5814783. -/
def mkPayload (p : JobPosting) : Payload :=
  { content := "",
    embeds := [{ title := p.title,
                 description :=
                   "**Location**: " ++ p.location ++ "\n" ++
                   "**Company**: " ++ p.company ++ "\n" ++
                   "**Job Type**: " ++ p.job_type ++ "\n" ++
                   "**Salary**: " ++ p.salary,
                 url := p.link,
                 color := 5814783 }] }

/-- The outcome of one `requests.post` call: either the library returns a
Response object carrying some HTTP status — success or error status alike,
the source never reads it — or the call itself raises an exception, as it
does on a transport-level failure such as a destination outage
(connection error). -/
inductive PostOutcome where
  | response (status : Nat)
  | raised
deriving Repr, DecidableEq

/-- `publish_to_discord` (src/scrape.py lines 84-111), run against a
network oracle `net` giving the outcome of the `i`-th POST.  For each
posting the loop builds the payload and POSTs it (line 109): a returned
Response is bound to nothing and never inspected, so the loop continues;
a raised exception is caught nowhere in `publish_to_discord` (nor in
`main`), so it escapes and aborts the loop.  The carried list is the
sequence of payloads whose POST was attempted, in order: `.ok` when the
loop ran to completion, `.error` when an exception escaped after the last
listed POST. -/
def publishLoop (net : Nat → PostOutcome) :
    List JobPosting → Nat → Except (List Payload) (List Payload)
  | [], _ => .ok []
  | p :: ps, i =>
    let payload := mkPayload p
    match net i with
    | .raised => .error [payload]
    | .response _ =>
      match publishLoop net ps (i + 1) with
      | .error attempted => .error (payload :: attempted)
      | .ok attempted => .ok (payload :: attempted)

/-- `publish_to_discord` from the first posting on. -/
def publish_to_discord (net : Nat → PostOutcome) (postings : List JobPosting) :
    Except (List Payload) (List Payload) :=
  publishLoop net postings 0

/-- The search-keys loop of `main` (src/scrape.py lines 125-131): with
1-based index `idx`, a key at `idx < len(search_keys)` contributes
`%22{key}%22%20OR`, the key at `idx = len(search_keys)` contributes
`%22{key}%22&`.  Equivalently: every key but the last is followed by
`%20OR`, the last by `&`. -/
def buildSearchQuery : List String → String
  | [] => ""
  | [k] => "%22" ++ k ++ "%22&"
  | k :: k2 :: ks => "%22" ++ k ++ "%22%20OR" ++ buildSearchQuery (k2 :: ks)

/-- The fixed filter parameters appended to the search query
(src/scrape.py lines 134-137). -/
def filterParams : String :=
  "explvl=entry_level&fromage=1&jt=fulltime&limit=50"

/-- The full outbound query string of `main` (src/scrape.py lines
133-137). -/
def buildQuery (keys : List String) : String :=
  buildSearchQuery keys ++ filterParams

/-- Modelled from the spec's words, for comparison with `buildSearchQuery`:
each phrase individually quoted (`%22` is the percent-encoded quote) and
the quoted phrases joined by the separator `sep`. -/
def specQuotedJoin (sep : String) : List String → String
  | [] => ""
  | [k] => "%22" ++ k ++ "%22"
  | k :: k2 :: ks => "%22" ++ k ++ "%22" ++ sep ++ specQuotedJoin sep (k2 :: ks)

/-- The `resultContent` sub-region of a card, located exactly as
src/scrape.py line 61 does. -/
def cardContent (job : Node) : Option Node :=
  job.find (some "td") (some "resultContent")

/-- The `jobTitle` marker element of a card (line 64), scoped to its
result content. -/
def cardTitleHeader (job : Node) : Option Node :=
  (cardContent job).bind (Node.find none (some "jobTitle"))

/-- The spans of a card's job-title region (line 65). -/
def cardTitleSpans (job : Node) : Option (List Node) :=
  (cardTitleHeader job).map (Node.findAll (some "span") none)

/-- The optional `metadata` sub-region of a card (line 62). -/
def cardMetadata (job : Node) : Option Node :=
  (cardContent job).bind (Node.find (some "div") (some "metadata"))

/-- The `companyName` sub-element of a card (line 76). -/
def cardCompany (job : Node) : Option Node :=
  (cardContent job).bind (Node.find none (some "companyName"))

/-- The `companyLocation` sub-element of a card (line 77). -/
def cardLocation (job : Node) : Option Node :=
  (cardContent job).bind (Node.find none (some "companyLocation"))

/-! Concrete markup fixtures, used to instantiate the theorems below.
`exCard1` and `exCard2` follow the two-card fixture of the spec's testable
property 6; the further fixtures exercise the failure branches. -/

def exSpan1 : Node := .elem "span" [] [] [.text "Helpdesk Tech"]

def exAnchor1 : Node := .elem "a" [] [("data-jk", "abc123")] [exSpan1]

def exHdr1 : Node := .elem "h2" ["jobTitle"] [] [exAnchor1]

def exComp1 : Node := .elem "span" ["companyName"] [] [.text "Acme"]

def exLoc1 : Node := .elem "div" ["companyLocation"] [] [.text "Remote"]

def exRC1 : Node := .elem "td" ["resultContent"] [] [exHdr1, exComp1, exLoc1]

def exCard1 : Node := .elem "div" ["tapItem"] [] [exRC1]

def exSpanNew : Node := .elem "span" [] [] [.text "new"]

def exSpan2 : Node := .elem "span" [] [] [.text "IT Support Specialist"]

def exAnchor2 : Node := .elem "a" [] [("data-jk", "def456")] [exSpanNew, exSpan2]

def exHdr2 : Node := .elem "h2" ["jobTitle"] [] [exAnchor2]

def exMeta2 : Node := .elem "div" ["metadata"] [] [.text "$40k-$50k"]

def exComp2 : Node := .elem "span" ["companyName"] [] [.text "Beta Corp"]

def exLoc2 : Node := .elem "div" ["companyLocation"] [] [.text "NYC"]

def exRC2 : Node := .elem "td" ["resultContent"] [] [exHdr2, exMeta2, exComp2, exLoc2]

def exCard2 : Node := .elem "div" ["tapItem"] [] [exRC2]

def exDoc : Node := .elem "body" [] [] [exCard1, exCard2]

/-- A well-formed card rooted at an anchor element instead of a `div`,
still carrying the `tapItem` class marker. -/
def exAnchorCard : Node :=
  .elem "a" ["tapItem"] [("data-jk", "ghi789")]
    [.elem "td" ["resultContent"] []
      [.elem "h2" ["jobTitle"] []
        [.elem "a" [] [("data-jk", "ghi789")] [exSpan1]],
       .elem "span" ["companyName"] [] [.text "Acme"],
       .elem "div" ["companyLocation"] [] [.text "Remote"]]]

def exAnchorDoc : Node := .elem "body" [] [] [exAnchorCard]

/-- A card whose title region holds two spans, both reading `new`. -/
def exCardNewNew : Node :=
  .elem "div" ["tapItem"] []
    [.elem "td" ["resultContent"] []
      [.elem "h2" ["jobTitle"] []
        [.elem "a" [] [("data-jk", "jk0")] [exSpanNew, .elem "span" [] [] [.text "new"]]],
       .elem "span" ["companyName"] [] [.text "Acme"],
       .elem "div" ["companyLocation"] [] [.text "Remote"]]]

/-- A card with no `companyName` sub-element. -/
def exCardNoCompany : Node :=
  .elem "div" ["tapItem"] []
    [.elem "td" ["resultContent"] []
      [.elem "h2" ["jobTitle"] []
        [.elem "a" [] [("data-jk", "jk1")] [exSpan1]],
       .elem "div" ["companyLocation"] [] [.text "Remote"]]]

def exDocNoCompany : Node := .elem "body" [] [] [exCard1, exCardNoCompany]

def exAnchorLoneNew : Node := .elem "a" [] [("data-jk", "jk2")] [exSpanNew]

def exHdrLoneNew : Node := .elem "h2" ["jobTitle"] [] [exAnchorLoneNew]

def exRCLoneNew : Node :=
  .elem "td" ["resultContent"] []
    [exHdrLoneNew,
     .elem "span" ["companyName"] [] [.text "Acme"],
     .elem "div" ["companyLocation"] [] [.text "Remote"]]

/-- A card whose title region holds exactly one span, reading `new`. -/
def exCardLoneNew : Node := .elem "div" ["tapItem"] [] [exRCLoneNew]

def exDocLoneNew : Node := .elem "body" [] [] [exCardLoneNew]

/-- The posting extracted from `exCard1`. -/
def exPosting1 : JobPosting :=
  { title := "Helpdesk Tech", link := mkLink "abc123", company := "Acme",
    location := "Remote", job_type := "Full Time", salary := "" }

/-- The posting extracted from `exCard2`. -/
def exPosting2 : JobPosting :=
  { title := "IT Support Specialist", link := mkLink "def456", company := "Beta Corp",
    location := "NYC", job_type := "Full Time", salary := "$40k-$50k" }

/-! Supporting lemmas about card extraction, the extraction loop and the
publish loop. -/

theorem scrapeCard_ok_of_parts (job jc hdr lastC s0 comp loc : Node) (key title : String)
    (hjc : Node.find (some "td") (some "resultContent") job = some jc)
    (hhdr : Node.find none (some "jobTitle") jc = some hdr)
    (hlast : (Node.children hdr).getLast? = some lastC)
    (hkey : Node.getAttr "data-jk" lastC = .ok key)
    (hs0 : (Node.findAll (some "span") none hdr)[0]? = some s0)
    (htitle : (s0.innerText = "new" ∧
                ((Node.findAll (some "span") none hdr)[1]?).map Node.innerText = some title) ∨
              (s0.innerText ≠ "new" ∧ title = s0.innerText))
    (hcomp : Node.find none (some "companyName") jc = some comp)
    (hloc : Node.find none (some "companyLocation") jc = some loc) :
    scrapeCard job = .ok
      { title := title,
        link := mkLink key,
        company := comp.innerText,
        location := loc.innerText,
        job_type := "Full Time",
        salary := match Node.find (some "div") (some "metadata") jc with
                  | some m => m.innerText
                  | none => "" } := by
  rcases htitle with ⟨hnew, hs1⟩ | ⟨hnew, rfl⟩
  · cases h1 : (Node.findAll (some "span") none hdr)[1]? with
    | none => rw [h1] at hs1; simp at hs1
    | some s1 =>
      rw [h1] at hs1
      simp only [Option.map_some', Option.some.injEq] at hs1
      subst hs1
      simp [scrapeCard, hjc, hhdr, hlast, hkey, hs0, h1, hnew, hcomp, hloc]
  · simp [scrapeCard, hjc, hhdr, hlast, hkey, hs0, hnew, hcomp, hloc]

theorem scrapeCard_ok_inv (job : Node) (p : JobPosting) (hok : scrapeCard job = .ok p) :
    ∃ jc, cardContent job = some jc ∧
      (Node.find none (some "companyName") jc).isSome = true ∧
      (Node.find none (some "companyLocation") jc).isSome = true := by
  unfold scrapeCard at hok
  cases hjc : Node.find (some "td") (some "resultContent") job with
  | none => simp [hjc] at hok
  | some jc =>
  simp only [hjc] at hok
  cases hhdr : Node.find none (some "jobTitle") jc with
  | none => simp [hhdr] at hok
  | some hdr =>
  simp only [hhdr] at hok
  cases hlast : (Node.children hdr).getLast? with
  | none => simp [hlast] at hok
  | some lastC =>
  simp only [hlast] at hok
  cases hkey : Node.getAttr "data-jk" lastC with
  | error e => simp [hkey] at hok
  | ok key =>
  simp only [hkey] at hok
  cases hs0 : (Node.findAll (some "span") none hdr)[0]? with
  | none => simp [hs0] at hok
  | some s0 =>
  simp only [hs0] at hok
  cases hcomp : Node.find none (some "companyName") jc with
  | none =>
      simp only [hcomp] at hok
      split at hok <;> simp at hok
  | some comp =>
  simp only [hcomp] at hok
  cases hloc : Node.find none (some "companyLocation") jc with
  | none =>
      simp only [hloc] at hok
      split at hok <;> simp at hok
  | some loc =>
  exact ⟨jc, by simpa [cardContent] using hjc, by simp [hcomp], by simp [hloc]⟩

theorem scrapeCard_indexError_of_lone_new (job jc hdr lastC s0 : Node) (key : String)
    (hjc : Node.find (some "td") (some "resultContent") job = some jc)
    (hhdr : Node.find none (some "jobTitle") jc = some hdr)
    (hlast : (Node.children hdr).getLast? = some lastC)
    (hkey : Node.getAttr "data-jk" lastC = .ok key)
    (hs0 : (Node.findAll (some "span") none hdr)[0]? = some s0)
    (hs1 : (Node.findAll (some "span") none hdr)[1]? = none)
    (hnew : s0.innerText = "new") :
    scrapeCard job = .error .indexError := by
  simp [scrapeCard, hjc, hhdr, hlast, hkey, hs0, hs1, hnew]

theorem scrapeCard_error_of_missing (job : Node)
    (hmiss : cardCompany job = none ∨ cardLocation job = none) :
    ∀ p, scrapeCard job ≠ .ok p := by
  intro p hok
  obtain ⟨jc, hjc, hcomp, hloc⟩ := scrapeCard_ok_inv job p hok
  rcases hmiss with h | h
  · rw [cardCompany, hjc, Option.some_bind] at h
    rw [h] at hcomp
    simp at hcomp
  · rw [cardLocation, hjc, Option.some_bind] at h
    rw [h] at hloc
    simp at hloc

theorem scrapeJobs_ok_of_forall (l : List Node)
    (h : ∀ job ∈ l, ((scrapeCard job).toOption).isSome = true) :
    ∃ ps, scrapeJobs l = .ok ps ∧ ps.length = l.length ∧
      ∀ i : Nat, ps[i]? = (l[i]?).bind fun job => (scrapeCard job).toOption := by
  induction l with
  | nil => exact ⟨[], rfl, rfl, by simp⟩
  | cons x xs ih =>
    have hx := h x (by simp)
    obtain ⟨p, hp⟩ : ∃ p, scrapeCard x = .ok p := by
      cases hsc : scrapeCard x with
      | ok q => exact ⟨q, rfl⟩
      | error e => rw [hsc] at hx; simp [Except.toOption] at hx
    obtain ⟨ps, hps, hlen, hidx⟩ := ih (fun job hj => h job (by simp [hj]))
    refine ⟨p :: ps, ?_, by simp [hlen], ?_⟩
    · simp [scrapeJobs, hp, hps]
    · intro i
      cases i with
      | zero => simp [hp, Except.toOption]
      | succ n => simpa using hidx n

theorem scrapeJobs_error_of_mem (l : List Node) (job : Node)
    (hmem : job ∈ l) (herr : ∀ p, scrapeCard job ≠ .ok p) :
    ∃ e, scrapeJobs l = .error e := by
  induction l with
  | nil => cases hmem
  | cons x xs ih =>
    cases hsc : scrapeCard x with
    | error e => exact ⟨e, by simp [scrapeJobs, hsc]⟩
    | ok p =>
      rcases List.mem_cons.mp hmem with rfl | hmem2
      · exact absurd hsc (herr p)
      · obtain ⟨e, he⟩ := ih hmem2
        exact ⟨e, by simp [scrapeJobs, hsc, he]⟩

theorem publishLoop_ok (net : Nat → Nat) (l : List JobPosting) (i : Nat) :
    publishLoop (fun j => PostOutcome.response (net j)) l i = .ok (l.map mkPayload) := by
  induction l generalizing i with
  | nil => rfl
  | cons p ps ih => simp [publishLoop, ih]

theorem publishLoop_abort (net : Nat → PostOutcome) (l : List JobPosting) (i k : Nat)
    (hk : k < l.length)
    (hraise : net (i + k) = .raised)
    (hresp : ∀ j, j < k → net (i + j) ≠ .raised) :
    publishLoop net l i = .error ((l.take (k + 1)).map mkPayload) := by
  induction l generalizing i k with
  | nil => simp at hk
  | cons p ps ih =>
    cases k with
    | zero =>
      rw [Nat.add_zero] at hraise
      simp [publishLoop, hraise]
    | succ k2 =>
      have h0 : net i ≠ .raised := by
        have := hresp 0 (Nat.succ_pos k2)
        simpa using this
      cases hni : net i with
      | raised => exact absurd hni h0
      | response s =>
        have hrec := ih (i + 1) k2
          (by simpa using Nat.lt_of_succ_lt_succ (by simpa using hk))
          (by rw [show i + 1 + k2 = i + (k2 + 1) from by omega]; exact hraise)
          (fun j hj => by
            rw [show i + 1 + j = i + (j + 1) from by omega]
            exact hresp (j + 1) (Nat.succ_lt_succ hj))
        simp [publishLoop, hni, hrec]

/-! Claim theorems. -/

/-- C1: for every markup document all of whose selected job cards are
well-formed (extraction of each card succeeds), `scrape_html` returns
exactly one posting per card, in document order, with no deduplication and
no filtering: there are as many postings as cards and the i-th posting is
exactly the record extracted from the i-th card. -/
theorem extract_returns_one_posting_per_card (doc : Node)
    (h : ∀ job ∈ Node.findAll (some "div") (some "tapItem") doc,
        ((scrapeCard job).toOption).isSome = true) :
    ∃ ps, scrape_html doc = .ok ps ∧
      ps.length = (Node.findAll (some "div") (some "tapItem") doc).length ∧
      ∀ i : Nat, ps[i]? =
        ((Node.findAll (some "div") (some "tapItem") doc)[i]?).bind
          fun job => (scrapeCard job).toOption := by
  simpa [scrape_html] using scrapeJobs_ok_of_forall _ h

/-- Witness for C1 at the two-card fixture document. -/
theorem extract_returns_one_posting_per_card_witness :
    ∃ ps, scrape_html exDoc = .ok ps ∧
      ps.length = (Node.findAll (some "div") (some "tapItem") exDoc).length ∧
      ∀ i : Nat, ps[i]? =
        ((Node.findAll (some "div") (some "tapItem") exDoc)[i]?).bind
          fun job => (scrapeCard job).toOption :=
  extract_returns_one_posting_per_card exDoc (by decide)

/-- C2 counterexample: `exAnchorDoc` holds one fully well-formed job card
carrying the `tapItem` class marker but rooted at an anchor element; the
extractor selects nothing and returns the empty posting list, although the
card would extract successfully had it been selected. -/
theorem anchor_rooted_card_not_selected :
    scrape_html exAnchorDoc = .ok [] ∧
    exAnchorCard ∈ Node.descendants exAnchorDoc ∧
    Node.matchesFilter none (some "tapItem") exAnchorCard = true ∧
    ((scrapeCard exAnchorCard).toOption).isSome = true ∧
    Node.findAll (some "div") (some "tapItem") exAnchorDoc = [] := by
  decide

/-- C2 (amended): the extractor locates job cards by the `tapItem` class
marker only on cards rooted at a generic container (`div`) element: a node
is selected exactly when it is a `div` descendant carrying the marker, so
a card rooted at an anchor element is never selected. -/
theorem card_selection_requires_div_root (doc job : Node) :
    job ∈ Node.findAll (some "div") (some "tapItem") doc ↔
      job ∈ Node.descendants doc ∧
      ∃ cls attrs ch, job = Node.elem "div" cls attrs ch ∧ "tapItem" ∈ cls := by
  constructor
  · intro hmem
    obtain ⟨hd, hm⟩ := List.mem_filter.mp hmem
    refine ⟨hd, ?_⟩
    cases job with
    | text s => simp [Node.matchesFilter] at hm
    | elem t cls attrs ch =>
      simp [Node.matchesFilter] at hm
      obtain ⟨ht, hc⟩ := hm
      exact ⟨cls, attrs, ch, by rw [ht], hc⟩
  · rintro ⟨hd, cls, attrs, ch, rfl, hcls⟩
    exact List.mem_filter.mpr ⟨hd, by simp [Node.matchesFilter, hcls]⟩

/-- C3 counterexample: in `exCardNewNew` the title region's first span
reads `new` and the second span also reads `new`; the extracted title is
the second span's text, which is itself the literal `new` — refuting the
claim that the extracted title is never the literal `new`. -/
theorem extracted_title_can_be_new :
    ((cardTitleSpans exCardNewNew).map fun spans => spans.map Node.innerText)
        = some ["new", "new"] ∧
    ((scrapeCard exCardNewNew).toOption.map JobPosting.title) = some "new" := by
  decide

/-- C3 (amended): the title extraction is a two-slot lookahead over the
title region's spans: when the first span's text is the literal `new`,
the extracted title is the second span's text — whatever that text is,
including, possibly, `new` itself — and exactly that one badge span is
skipped; when the first span's text is not `new`, the extracted title is
the first span's text. -/
theorem title_two_slot_lookahead (job jc hdr lastC s0 comp loc : Node) (key : String)
    (hjc : Node.find (some "td") (some "resultContent") job = some jc)
    (hhdr : Node.find none (some "jobTitle") jc = some hdr)
    (hlast : (Node.children hdr).getLast? = some lastC)
    (hkey : Node.getAttr "data-jk" lastC = .ok key)
    (hs0 : (Node.findAll (some "span") none hdr)[0]? = some s0)
    (hcomp : Node.find none (some "companyName") jc = some comp)
    (hloc : Node.find none (some "companyLocation") jc = some loc) :
    (∀ s1, s0.innerText = "new" → (Node.findAll (some "span") none hdr)[1]? = some s1 →
        ∃ p, scrapeCard job = .ok p ∧ p.title = s1.innerText) ∧
    (s0.innerText ≠ "new" →
        ∃ p, scrapeCard job = .ok p ∧ p.title = s0.innerText) := by
  constructor
  · intro s1 hnew hs1
    exact ⟨_, scrapeCard_ok_of_parts job jc hdr lastC s0 comp loc key s1.innerText
      hjc hhdr hlast hkey hs0 (.inl ⟨hnew, by rw [hs1]; rfl⟩) hcomp hloc, rfl⟩
  · intro hnew
    exact ⟨_, scrapeCard_ok_of_parts job jc hdr lastC s0 comp loc key s0.innerText
      hjc hhdr hlast hkey hs0 (.inr ⟨hnew, rfl⟩) hcomp hloc, rfl⟩

/-- Witness for C3 (amended): the badge card `exCard2` extracts with the
second span's text as title, and the badge-free card `exCard1` extracts
with the first span's text as title. -/
theorem title_two_slot_lookahead_witness :
    (∃ p, scrapeCard exCard2 = .ok p ∧ p.title = exSpan2.innerText) ∧
    (∃ p, scrapeCard exCard1 = .ok p ∧ p.title = exSpan1.innerText) :=
  ⟨(title_two_slot_lookahead exCard2 exRC2 exHdr2 exAnchor2 exSpanNew exComp2 exLoc2 "def456"
      (by decide) (by decide) (by decide) (by decide) (by decide) (by decide) (by decide)).1
      exSpan2 (by decide) (by decide),
   (title_two_slot_lookahead exCard1 exRC1 exHdr1 exAnchor1 exSpan1 exComp1 exLoc1 "abc123"
      (by decide) (by decide) (by decide) (by decide) (by decide) (by decide) (by decide)).2
      (by decide)⟩

/-- C4: a card that is well-formed in every required respect but has no
metadata sub-region extracts successfully, and the resulting posting's
salary is the empty string. -/
theorem salary_empty_when_no_metadata (job jc hdr lastC s0 comp loc : Node) (key : String)
    (hjc : Node.find (some "td") (some "resultContent") job = some jc)
    (hhdr : Node.find none (some "jobTitle") jc = some hdr)
    (hlast : (Node.children hdr).getLast? = some lastC)
    (hkey : Node.getAttr "data-jk" lastC = .ok key)
    (hs0 : (Node.findAll (some "span") none hdr)[0]? = some s0)
    (htitle : s0.innerText = "new" →
        ((Node.findAll (some "span") none hdr)[1]?).isSome = true)
    (hcomp : Node.find none (some "companyName") jc = some comp)
    (hloc : Node.find none (some "companyLocation") jc = some loc)
    (hmeta : cardMetadata job = none) :
    ∃ p, scrapeCard job = .ok p ∧ p.salary = "" := by
  have hmeta2 : Node.find (some "div") (some "metadata") jc = none := by
    rw [cardMetadata, cardContent, hjc, Option.some_bind] at hmeta
    exact hmeta
  by_cases hnew : s0.innerText = "new"
  · obtain ⟨s1, hs1⟩ := Option.isSome_iff_exists.mp (htitle hnew)
    refine ⟨_, scrapeCard_ok_of_parts job jc hdr lastC s0 comp loc key s1.innerText
      hjc hhdr hlast hkey hs0 (.inl ⟨hnew, by rw [hs1]; rfl⟩) hcomp hloc, ?_⟩
    simp [hmeta2]
  · refine ⟨_, scrapeCard_ok_of_parts job jc hdr lastC s0 comp loc key s0.innerText
      hjc hhdr hlast hkey hs0 (.inr ⟨hnew, rfl⟩) hcomp hloc, ?_⟩
    simp [hmeta2]

/-- Witness for C4 at `exCard1`, which has no metadata sub-region. -/
theorem salary_empty_when_no_metadata_witness :
    ∃ p, scrapeCard exCard1 = .ok p ∧ p.salary = "" :=
  salary_empty_when_no_metadata exCard1 exRC1 exHdr1 exAnchor1 exSpan1 exComp1 exLoc1 "abc123"
    (by decide) (by decide) (by decide) (by decide) (by decide)
    (fun h => absurd h (by decide)) (by decide) (by decide) (by decide)

/-- C5: a selected card missing the company or the location sub-element
makes extraction of that card fail — the empty string is never
substituted — and the failure aborts the entire extraction call: the whole
`scrape_html` call returns an error, so no posting is returned for any
card. -/
theorem missing_company_or_location_aborts (doc job : Node)
    (hmem : job ∈ Node.findAll (some "div") (some "tapItem") doc)
    (hmiss : cardCompany job = none ∨ cardLocation job = none) :
    (∀ p, scrapeCard job ≠ .ok p) ∧ ∃ e, scrape_html doc = .error e := by
  have h1 := scrapeCard_error_of_missing job hmiss
  refine ⟨h1, ?_⟩
  simpa [scrape_html] using scrapeJobs_error_of_mem _ job hmem h1

/-- Witness for C5 at `exDocNoCompany`, whose second card has no
`companyName` sub-element. -/
theorem missing_company_or_location_aborts_witness :
    (∀ p, scrapeCard exCardNoCompany ≠ .ok p) ∧
    ∃ e, scrape_html exDocNoCompany = .error e :=
  missing_company_or_location_aborts exDocNoCompany exCardNoCompany
    (by decide) (.inl (by decide))

/-- C6: link construction from a job key is deterministic — it always
yields the fixed view-job base URL with the key appended as the `jk` query
parameter — and injective: distinct job keys yield distinct links. -/
theorem link_injective_deterministic (k1 k2 : String) :
    mkLink k1 = "https://indeed.com/viewjob?jk=" ++ k1 ∧
    (k1 ≠ k2 → mkLink k1 ≠ mkLink k2) := by
  refine ⟨rfl, fun hne heq => hne ?_⟩
  have hd := congrArg String.data heq
  simp only [mkLink, String.data_append] at hd
  exact String.ext (List.append_cancel_left hd)

/-- Witness for C6 at the two fixture job keys. -/
theorem link_injective_deterministic_witness :
    mkLink "abc123" = "https://indeed.com/viewjob?jk=" ++ "abc123" ∧
    mkLink "abc123" ≠ mkLink "def456" :=
  ⟨(link_injective_deterministic "abc123" "def456").1,
   (link_injective_deterministic "abc123" "def456").2 (by decide)⟩

/-- The search-keys loop emits, between two consecutive quoted phrases,
the percent-encoded token `%20OR` and nothing more: for a non-empty key
list the built query is the quoted phrases joined by `%20OR`, then `&`,
then the filter parameters. -/
theorem buildSearchQuery_join (keys : List String) (hne : keys ≠ []) :
    buildSearchQuery keys = specQuotedJoin "%20OR" keys ++ "&" := by
  induction keys with
  | nil => cases hne rfl
  | cons k ks ih =>
    cases ks with
    | nil => simp [buildSearchQuery, specQuotedJoin, String.append_assoc]
    | cons k2 ks2 =>
      rw [buildSearchQuery, specQuotedJoin, ih (by simp)]
      have hsplit : ("%22%20OR" : String) = "%22" ++ "%20OR" := by decide
      rw [hsplit]
      simp [String.append_assoc]

/-- C7 counterexample: for a two-phrase key list the constructed query
joins the quoted phrases with `%20OR` — no encoded space follows the `OR`
token — so it differs from the claimed form in which the join token is
the percent-encoding `%20OR%20` of the literal `" OR "`. -/
theorem query_join_token_lacks_trailing_space :
    buildQuery ["helpdesk", "it support"] ≠
      specQuotedJoin "%20OR%20" ["helpdesk", "it support"] ++ "&" ++ filterParams ∧
    buildQuery ["helpdesk", "it support"] =
      "%22helpdesk%22%20OR%22it support%22&explvl=entry_level&fromage=1&jt=fulltime&limit=50" := by
  decide

/-- C7 (amended): for a non-empty ordered list of search keyword phrases
the outbound query string is each phrase individually quoted and the
quoted phrases joined by the percent-encoded token `%20OR` (a literal
`" OR"` with no trailing space before the next quote), followed by `&` and
the fixed filter parameters: entry-level experience, posted-within-1-day
freshness, full-time job type, and result-count limit 50. -/
theorem query_construction (keys : List String) (hne : keys ≠ []) :
    buildQuery keys = specQuotedJoin "%20OR" keys ++ "&" ++ filterParams := by
  rw [buildQuery, buildSearchQuery_join keys hne]

/-- Witness for C7 (amended) at a two-phrase key list. -/
theorem query_construction_witness :
    buildQuery ["helpdesk", "it support"] =
      specQuotedJoin "%20OR" ["helpdesk", "it support"] ++ "&" ++ filterParams :=
  query_construction ["helpdesk", "it support"] (by decide)

/-- C8: whatever HTTP statuses the destination answers with — the code
never reads them — publish issues exactly one outbound POST per posting,
in list order; each payload has the empty content string and a single
embed whose title is the posting's title, whose url is the posting's
link, whose color is the literal 5814783, and whose description is the
four labelled lines in the fixed order Location, Company, Job Type,
Salary. -/
theorem publish_payload_shape (net : Nat → Nat) (postings : List JobPosting) :
    ∃ pays,
      publish_to_discord (fun i => PostOutcome.response (net i)) postings = .ok pays ∧
      pays.length = postings.length ∧
      ∀ i : Nat, pays[i]? = (postings[i]?).map fun p =>
        { content := "",
          embeds := [{ title := p.title,
                       description := "**Location**: " ++ p.location ++ "\n" ++
                         "**Company**: " ++ p.company ++ "\n" ++
                         "**Job Type**: " ++ p.job_type ++ "\n" ++
                         "**Salary**: " ++ p.salary,
                       url := p.link,
                       color := 5814783 }] } := by
  refine ⟨postings.map mkPayload, publishLoop_ok net postings 0, by simp, fun i => ?_⟩
  cases h : postings[i]? <;> simp [h, mkPayload]

/-- C9 counterexample: with two postings and a destination outage making
the very first POST raise a connection error, the uncaught exception
aborts the publish loop: only the first POST is attempted, the exception
escapes `publish_to_discord`, and the second posting's payload is never
POSTed — refuting the claim that a delivery failure of the POST for one
posting never aborts the loop. -/
theorem post_exception_aborts_loop :
    publish_to_discord (fun _ => PostOutcome.raised) [exPosting1, exPosting2] =
      .error [mkPayload exPosting1] ∧
    mkPayload exPosting2 ∉ [mkPayload exPosting1] := by
  decide

/-- C9 (amended): the POST's returned response is never inspected, so a
delivery failure reported through the response — any HTTP error status —
is silently ignored and the loop attempts every posting's POST in order;
but a transport-level delivery failure, where the POST call itself raises
(a destination outage), is caught nowhere: the loop aborts after the
raising POST, the exception escapes, and no subsequent posting's POST is
attempted. -/
theorem publish_response_ignored_exception_aborts
    (net : Nat → Nat) (netE : Nat → PostOutcome)
    (postings : List JobPosting) (k : Nat)
    (hk : k < postings.length)
    (hraise : netE k = .raised)
    (hresp : ∀ j, j < k → netE j ≠ .raised) :
    publish_to_discord (fun i => PostOutcome.response (net i)) postings =
      .ok (postings.map mkPayload) ∧
    publish_to_discord netE postings =
      .error ((postings.take (k + 1)).map mkPayload) := by
  refine ⟨publishLoop_ok net postings 0, ?_⟩
  have := publishLoop_abort netE postings 0 k hk (by simpa using hraise)
    (fun j hj => by simpa using hresp j hj)
  simpa [publish_to_discord] using this

/-- Witness for C9 (amended): two postings, all-response outcomes versus
an outage that makes the second POST raise. -/
theorem publish_response_ignored_exception_aborts_witness :
    publish_to_discord (fun _ => PostOutcome.response 200) [exPosting1, exPosting2] =
      .ok ([exPosting1, exPosting2].map mkPayload) ∧
    publish_to_discord
        (fun i => if i < 1 then PostOutcome.response 200 else PostOutcome.raised)
        [exPosting1, exPosting2] =
      .error (([exPosting1, exPosting2].take 2).map mkPayload) :=
  publish_response_ignored_exception_aborts (fun _ => 200)
    (fun i => if i < 1 then PostOutcome.response 200 else PostOutcome.raised)
    [exPosting1, exPosting2] 1 (by decide) (by decide)
    (fun j hj => by simp [hj])

/-- C10: a card whose job-title region holds exactly one span, reading the
literal `new` — the preceding lookups (result content, title header, job
key) all succeeding — fails with IndexError at the read of the second
span, and its presence among the selected cards makes the whole
`scrape_html` call fail: no posting is produced for any card rather than
the card being skipped. -/
theorem lone_new_span_index_error (job jc hdr lastC s0 : Node) (key : String)
    (hjc : Node.find (some "td") (some "resultContent") job = some jc)
    (hhdr : Node.find none (some "jobTitle") jc = some hdr)
    (hlast : (Node.children hdr).getLast? = some lastC)
    (hkey : Node.getAttr "data-jk" lastC = .ok key)
    (hspans : Node.findAll (some "span") none hdr = [s0])
    (hnew : s0.innerText = "new") :
    scrapeCard job = .error .indexError ∧
    ∀ doc : Node, job ∈ Node.findAll (some "div") (some "tapItem") doc →
      ∀ ps, scrape_html doc ≠ .ok ps := by
  have hcard : scrapeCard job = .error .indexError :=
    scrapeCard_indexError_of_lone_new job jc hdr lastC s0 key hjc hhdr hlast hkey
      (by rw [hspans]; rfl) (by rw [hspans]; rfl) hnew
  refine ⟨hcard, fun doc hmem ps hok => ?_⟩
  obtain ⟨e, he⟩ := scrapeJobs_error_of_mem _ job hmem (fun p h => by simp [hcard] at h)
  rw [scrape_html, he] at hok
  cases hok

/-- Witness for C10 at the lone-badge fixture card and document. -/
theorem lone_new_span_index_error_witness :
    scrapeCard exCardLoneNew = .error .indexError ∧
    ∀ doc : Node, exCardLoneNew ∈ Node.findAll (some "div") (some "tapItem") doc →
      ∀ ps, scrape_html doc ≠ .ok ps :=
  lone_new_span_index_error exCardLoneNew exRCLoneNew exHdrLoneNew exAnchorLoneNew
    exSpanNew "jk2" (by decide) (by decide) (by decide) (by decide) (by decide) (by decide)

end Scraper
